import Mathlib

/-!
Shallow embedding of the persistent countdown state machine implemented in
`src/background/index.ts` of the pomodoro timer extension.

Modelling conventions:
* Wall-clock instants (`Date.now()` values, milliseconds) are integers (`ℤ`).
* Stored numeric fields (`duration`, `timeLeft`) are rationals (`ℚ`);
  all arithmetic the code performs on them (subtraction, `Math.floor`,
  `Math.max`, division by constants) is exact on `ℚ`.
* The `SET_DURATION` payload may be a non-finite JavaScript number
  (`NaN`, `Infinity`, `-Infinity`), modelled by `JSNum`.
* Every handler is a pure function of the snapshot the store would return
  plus the current instant; its side effects (store reads/writes, alarm
  creation/clearing, completion notifications) are returned as an explicit
  `Effect` list in the order the code performs them.
-/

namespace Pomodoro

/-- Timer mode; the source uses the string union `'work' | 'break'`
(`brk` stands for `'break'`). -/
inductive Mode where
  | work
  | brk
deriving DecidableEq, Repr

/-- `TimerStorageState` from `src/background/index.ts`:
`duration` (total seconds), `timeLeft` (seconds remaining), `isRunning`,
`startTime` (`Date.now()` timestamp or `null`), `mode`. -/
structure TimerStorageState where
  duration : ℚ
  timeLeft : ℚ
  isRunning : Bool
  startTime : Option ℤ
  mode : Mode
deriving DecidableEq, Repr

/-- `const ALARM_NAME = 'pomodoro-timer'`. -/
def ALARM_NAME : String := "pomodoro-timer"

/-- `DEFAULT_TIMER_STATE`: 25 minutes of work, stopped. -/
def DEFAULT_TIMER_STATE : TimerStorageState :=
  { duration := 25 * 60
    timeLeft := 25 * 60
    isRunning := false
    startTime := none
    mode := Mode.work }

/-- A JavaScript number as far as `SET_DURATION` validation can observe it:
either a finite value or one of the non-finite values. -/
inductive JSNum where
  | num (q : ℚ)
  | nan
  | posInf
  | negInf
deriving DecidableEq, Repr

/-- Side effects a handler performs, in program order. -/
inductive Effect where
  | readStore
  | writeStore (s : TimerStorageState)
  | alarmCreate (delayInMinutes periodInMinutes : ℚ)
  | alarmClear
  | notifyFinished (m : Mode)
deriving DecidableEq, Repr

/-- `Math.floor((now - startTime) / 1000)` — elapsed whole seconds between
the anchor `t0` and `now` (both in milliseconds). -/
def elapsedSeconds (t0 now : ℤ) : ℤ :=
  ⌊(((now - t0 : ℤ) : ℚ)) / 1000⌋

/-- `computeTimeLeft`: returns `state.timeLeft` unchanged unless the timer
is running with a non-null anchor, in which case it projects
`max(0, timeLeft - elapsed)`. -/
def computeTimeLeft (state : TimerStorageState) (now : ℤ) : ℚ :=
  match state.isRunning, state.startTime with
  | true, some t0 => max 0 (state.timeLeft - (elapsedSeconds t0 now : ℚ))
  | _, _ => state.timeLeft

/-- `startTimer`: no-op if already running or `timeLeft <= 0`; otherwise
persists `{isRunning: true, startTime: now}` and creates the alarm with
`delayInMinutes = max(timeLeft / 60, 0.08)` and `periodInMinutes = 1`. -/
def startTimer (state : TimerStorageState) (now : ℤ) :
    TimerStorageState × List Effect :=
  if state.isRunning = true then (state, [Effect.readStore])
  else if state.timeLeft ≤ 0 then (state, [Effect.readStore])
  else
    let updatedState : TimerStorageState :=
      { state with isRunning := true, startTime := some now }
    let delayInMinutes : ℚ := max (updatedState.timeLeft / 60) (8 / 100)
    (updatedState,
      [Effect.readStore, Effect.writeStore updatedState,
        Effect.alarmCreate delayInMinutes 1])

/-- `pauseTimer`: no-op if not running; otherwise persists the projected
remaining time with `isRunning := false`, `startTime := null` and clears
the alarm. -/
def pauseTimer (state : TimerStorageState) (now : ℤ) :
    TimerStorageState × List Effect :=
  if state.isRunning = false then (state, [Effect.readStore])
  else
    let remaining := computeTimeLeft state now
    let updatedState : TimerStorageState :=
      { state with
        isRunning := false
        timeLeft := remaining
        startTime := none }
    (updatedState,
      [Effect.readStore, Effect.writeStore updatedState, Effect.alarmClear])

/-- `resetTimer`: sets `duration` and `timeLeft` to the requested duration
(defaulting to the stored `duration`), stops the timer, clears the alarm.
The source performs no validation on the requested duration. -/
def resetTimer (state : TimerStorageState) (durationArg : Option ℚ) :
    TimerStorageState × List Effect :=
  let resetDuration := durationArg.getD state.duration
  let updatedState : TimerStorageState :=
    { state with
      duration := resetDuration
      timeLeft := resetDuration
      isRunning := false
      startTime := none }
  (updatedState,
    [Effect.readStore, Effect.writeStore updatedState, Effect.alarmClear])

/-- `handleAlarm`: ignores foreign alarm names without touching the store;
otherwise reads the snapshot, no-ops when not running, and either finishes
the timer (persist zeroed snapshot, clear alarm, notify) or re-anchors the
projected remaining time. -/
def handleAlarm (alarmName : String) (state : TimerStorageState) (now : ℤ) :
    List Effect :=
  if alarmName ≠ ALARM_NAME then []
  else if state.isRunning = false then [Effect.readStore]
  else
    let remaining := computeTimeLeft state now
    if remaining ≤ 0 then
      let finishedState : TimerStorageState :=
        { state with isRunning := false, timeLeft := 0, startTime := none }
      [Effect.readStore, Effect.writeStore finishedState, Effect.alarmClear,
        Effect.notifyFinished state.mode]
    else
      let updatedState : TimerStorageState :=
        { state with timeLeft := remaining, startTime := some now }
      [Effect.readStore, Effect.writeStore updatedState]

/-- `restoreTimerState`: recovery on service-worker startup.  Returns the
snapshot unchanged when not running or unanchored; when the projected
remaining time is `<= 0` it persists the finished snapshot and notifies
(without clearing the alarm); otherwise it re-anchors and re-creates the
alarm. -/
def restoreTimerState (state : TimerStorageState) (now : ℤ) :
    TimerStorageState × List Effect :=
  if state.isRunning = false ∨ state.startTime = none then
    (state, [Effect.readStore])
  else
    let remaining := computeTimeLeft state now
    if remaining ≤ 0 then
      let finishedState : TimerStorageState :=
        { state with isRunning := false, timeLeft := 0, startTime := none }
      (finishedState,
        [Effect.readStore, Effect.writeStore finishedState,
          Effect.notifyFinished state.mode])
    else
      let restoredState : TimerStorageState :=
        { state with timeLeft := remaining, startTime := some now }
      let delayInMinutes : ℚ := max (remaining / 60) (8 / 100)
      (restoredState,
        [Effect.readStore, Effect.writeStore restoredState,
          Effect.alarmCreate delayInMinutes 1])

/-- `TimerMessage`: the request union the popup can send; payload fields
are optional exactly as in the source. -/
inductive TimerMessage where
  | getState
  | start
  | pause
  | reset (duration : Option ℚ)
  | setMode (mode : Option Mode)
  | setDuration (duration : Option JSNum)
deriving DecidableEq, Repr

/-- `handleMessage`: dispatches a request against the stored snapshot
`current` at instant `now`; the first component is the state sent back via
`sendResponse`, the second the effect trace. -/
def handleMessage (message : TimerMessage) (current : TimerStorageState)
    (now : ℤ) : TimerStorageState × List Effect :=
  match message with
  | TimerMessage.getState =>
      ({ current with timeLeft := computeTimeLeft current now },
        [Effect.readStore])
  | TimerMessage.start => startTimer current now
  | TimerMessage.pause => pauseTimer current now
  | TimerMessage.reset d => resetTimer current d
  | TimerMessage.setMode m =>
      let newMode := m.getD current.mode
      let state : TimerStorageState := { current with mode := newMode }
      (state, [Effect.readStore, Effect.writeStore state])
  | TimerMessage.setDuration d =>
      let rawDuration : JSNum := d.getD (JSNum.num current.duration)
      -- `Number.isFinite(rawDuration) ? Math.floor(rawDuration) : 0`
      let floored : ℚ :=
        match rawDuration with
        | JSNum.num q => ((⌊q⌋ : ℤ) : ℚ)
        | _ => 0
      let newDuration : ℚ := if floored > 0 then floored else current.duration
      let state : TimerStorageState :=
        { current with
          duration := newDuration
          timeLeft := newDuration
          isRunning := false
          startTime := none }
      (state, [Effect.readStore, Effect.writeStore state, Effect.alarmClear])

/-- One external stimulus hitting the background worker: a popup message,
an alarm firing, or a service-worker (re)start. -/
inductive Op where
  | msg (m : TimerMessage) (now : ℤ)
  | alarm (name : String) (now : ℤ)
  | restore (now : ℤ)
deriving DecidableEq, Repr

/-- The instant at which an operation runs. -/
def Op.time : Op → ℤ
  | Op.msg _ now => now
  | Op.alarm _ now => now
  | Op.restore now => now

/-- The effect trace an operation produces against stored snapshot `s`. -/
def effectsOf (s : TimerStorageState) : Op → List Effect
  | Op.msg m now => (handleMessage m s now).2
  | Op.alarm name now => handleAlarm name s now
  | Op.restore now => (restoreTimerState s now).2

/-- Replay the store writes of an effect trace (last write wins). -/
def applyWrites (s : TimerStorageState) : List Effect → TimerStorageState
  | [] => s
  | Effect.writeStore t :: rest => applyWrites t rest
  | _ :: rest => applyWrites s rest

/-- The stored snapshot after an operation runs. -/
def stepStore (s : TimerStorageState) (op : Op) : TimerStorageState :=
  applyWrites s (effectsOf s op)

/-- Snapshots reachable from the default snapshot by any sequence of
operations (at arbitrary instants). -/
inductive Reachable : TimerStorageState → Prop where
  | base : Reachable DEFAULT_TIMER_STATE
  | step (s : TimerStorageState) (op : Op) (h : Reachable s) :
      Reachable (stepStore s op)

/-- Snapshots reachable from the default snapshot by operations whose
instants never go backwards, together with the instant of the last
operation. -/
inductive ReachableAt : TimerStorageState → ℤ → Prop where
  | base (t : ℤ) : ReachableAt DEFAULT_TIMER_STATE t
  | step (s : TimerStorageState) (t : ℤ) (op : Op) (h : ReachableAt s t)
      (ht : t ≤ op.time) : ReachableAt (stepStore s op) op.time

/-- `SET_DURATION` payloads the code rejects: non-finite numbers, and
finite numbers whose floor is `≤ 0`. -/
def rejectedDuration (j : JSNum) : Prop :=
  match j with
  | JSNum.num q => ⌊q⌋ ≤ 0
  | _ => True

-- ── Basic facts about the time projection ───────────────────────────

theorem computeTimeLeft_of_not_running (s : TimerStorageState) (now : ℤ)
    (h : s.isRunning = false) : computeTimeLeft s now = s.timeLeft := by
  cases hs : s.startTime <;> simp [computeTimeLeft, h, hs]

theorem computeTimeLeft_of_none (s : TimerStorageState) (now : ℤ)
    (h : s.startTime = none) : computeTimeLeft s now = s.timeLeft := by
  cases hr : s.isRunning <;> simp [computeTimeLeft, h, hr]

theorem computeTimeLeft_of_running (s : TimerStorageState) (now t0 : ℤ)
    (hr : s.isRunning = true) (ha : s.startTime = some t0) :
    computeTimeLeft s now =
      max 0 (s.timeLeft - (elapsedSeconds t0 now : ℚ)) := by
  simp [computeTimeLeft, hr, ha]

theorem elapsedSeconds_nonneg (t0 now : ℤ) (h : t0 ≤ now) :
    0 ≤ elapsedSeconds t0 now := by
  apply Int.le_floor.mpr
  have h1 : (0 : ℚ) ≤ ((now - t0 : ℤ) : ℚ) := by
    exact_mod_cast sub_nonneg.mpr h
  have h2 : (0 : ℚ) ≤ ((now - t0 : ℤ) : ℚ) / 1000 := by positivity
  simpa using h2

theorem elapsedSeconds_mono (t0 : ℤ) {n1 n2 : ℤ} (h : n1 ≤ n2) :
    elapsedSeconds t0 n1 ≤ elapsedSeconds t0 n2 := by
  apply Int.floor_le_floor
  have h1 : ((n1 - t0 : ℤ) : ℚ) ≤ ((n2 - t0 : ℤ) : ℚ) := by
    exact_mod_cast sub_le_sub_right h t0
  have h1000 : (0 : ℚ) ≤ 1000 := by norm_num
  exact div_le_div_of_nonneg_right h1 h1000

theorem computeTimeLeft_nonneg (s : TimerStorageState) (now : ℤ)
    (h : 0 ≤ s.timeLeft) : 0 ≤ computeTimeLeft s now := by
  cases hr : s.isRunning <;> cases hs : s.startTime <;>
    simp [computeTimeLeft, hr, hs, h, le_max_left]

theorem computeTimeLeft_le_timeLeft (s : TimerStorageState) (now : ℤ)
    (h0 : 0 ≤ s.timeLeft)
    (ha : ∀ t0, s.startTime = some t0 → t0 ≤ now) :
    computeTimeLeft s now ≤ s.timeLeft := by
  cases hr : s.isRunning with
  | false => simp [computeTimeLeft_of_not_running s now hr]
  | true =>
    cases hs : s.startTime with
    | none => simp [computeTimeLeft_of_none s now hs]
    | some t0 =>
      rw [computeTimeLeft_of_running s now t0 hr hs]
      have he : (0 : ℚ) ≤ (elapsedSeconds t0 now : ℚ) := by
        exact_mod_cast elapsedSeconds_nonneg t0 now (ha t0 hs)
      exact max_le h0 (by linarith)

-- ── Stored-state characterization of each operation ─────────────────

theorem stepStore_msg_getState (s : TimerStorageState) (now : ℤ) :
    stepStore s (Op.msg TimerMessage.getState now) = s := by
  simp [stepStore, effectsOf, handleMessage, applyWrites]

theorem stepStore_msg_start (s : TimerStorageState) (now : ℤ) :
    stepStore s (Op.msg TimerMessage.start now) = (startTimer s now).1 := by
  by_cases h1 : s.isRunning = true
  · simp [stepStore, effectsOf, handleMessage, startTimer, h1, applyWrites]
  · by_cases h2 : s.timeLeft ≤ 0 <;>
      simp [stepStore, effectsOf, handleMessage, startTimer, h1, h2,
        applyWrites]

theorem stepStore_msg_pause (s : TimerStorageState) (now : ℤ) :
    stepStore s (Op.msg TimerMessage.pause now) = (pauseTimer s now).1 := by
  by_cases h1 : s.isRunning = false <;>
    simp [stepStore, effectsOf, handleMessage, pauseTimer, h1, applyWrites]

theorem stepStore_msg_reset (s : TimerStorageState) (d : Option ℚ)
    (now : ℤ) :
    stepStore s (Op.msg (TimerMessage.reset d) now) = (resetTimer s d).1 := by
  simp [stepStore, effectsOf, handleMessage, resetTimer, applyWrites]

theorem stepStore_msg_setMode (s : TimerStorageState) (m : Option Mode)
    (now : ℤ) :
    stepStore s (Op.msg (TimerMessage.setMode m) now) =
      { s with mode := m.getD s.mode } := by
  simp [stepStore, effectsOf, handleMessage, applyWrites]

theorem stepStore_msg_setDuration (s : TimerStorageState)
    (d : Option JSNum) (now : ℤ) :
    stepStore s (Op.msg (TimerMessage.setDuration d) now) =
      (handleMessage (TimerMessage.setDuration d) s now).1 := by
  simp [stepStore, effectsOf, handleMessage, applyWrites]

theorem stepStore_restore_eq (s : TimerStorageState) (now : ℤ) :
    stepStore s (Op.restore now) = (restoreTimerState s now).1 := by
  by_cases h1 : s.isRunning = false ∨ s.startTime = none
  · simp [stepStore, effectsOf, restoreTimerState, h1, applyWrites]
  · by_cases h2 : computeTimeLeft s now ≤ 0 <;>
      simp [stepStore, effectsOf, restoreTimerState, h1, h2, applyWrites]

-- ── The running/anchor invariant (claim C5) ─────────────────────────

/-- `isRunning == true ⇔ anchorInstant != null`. -/
def RunAnchorInv (s : TimerStorageState) : Prop :=
  s.isRunning = true ↔ s.startTime ≠ none

theorem runAnchorInv_default : RunAnchorInv DEFAULT_TIMER_STATE := by
  simp [RunAnchorInv, DEFAULT_TIMER_STATE]

theorem runAnchorInv_step (s : TimerStorageState) (op : Op)
    (h : RunAnchorInv s) : RunAnchorInv (stepStore s op) := by
  cases op with
  | msg m now =>
    cases m with
    | getState => rw [stepStore_msg_getState]; exact h
    | start =>
      rw [stepStore_msg_start]
      unfold startTimer
      split_ifs with h1 h2
      · exact h
      · exact h
      · simp [RunAnchorInv]
    | pause =>
      rw [stepStore_msg_pause]
      unfold pauseTimer
      split_ifs with h1
      · exact h
      · simp [RunAnchorInv]
    | reset d =>
      rw [stepStore_msg_reset]
      unfold resetTimer
      simp [RunAnchorInv]
    | setMode m =>
      rw [stepStore_msg_setMode]
      simpa [RunAnchorInv] using h
    | setDuration d =>
      rw [stepStore_msg_setDuration]
      simp only [handleMessage]
      simp [RunAnchorInv]
  | alarm name now =>
    by_cases hn : name ≠ ALARM_NAME
    · simp only [stepStore, effectsOf]
      simp [handleAlarm, hn, applyWrites]
      exact h
    · push_neg at hn
      by_cases hr : s.isRunning = false
      · simp only [stepStore, effectsOf]
        simp [handleAlarm, hn, hr, applyWrites]
        simpa [RunAnchorInv, hr] using h
      · have hr' : s.isRunning = true := by
          cases hb : s.isRunning
          · exact absurd hb hr
          · rfl
        by_cases hrem : computeTimeLeft s now ≤ 0
        · simp only [stepStore, effectsOf]
          simp [handleAlarm, hn, hr', hrem, applyWrites, RunAnchorInv]
        · simp only [stepStore, effectsOf]
          simp [handleAlarm, hn, hr', hrem, applyWrites, RunAnchorInv]
  | restore now =>
    rw [stepStore_restore_eq]
    by_cases h1 : s.isRunning = false ∨ s.startTime = none
    · simp only [restoreTimerState, if_pos h1]
      exact h
    · have hr' : s.isRunning = true := by
        cases hb : s.isRunning
        · exact absurd (Or.inl hb) h1
        · rfl
      have hs' : ¬ s.startTime = none := fun hh => h1 (Or.inr hh)
      by_cases h2 : computeTimeLeft s now ≤ 0
      · simp [restoreTimerState, h1, h2, RunAnchorInv]
      · simp [restoreTimerState, h1, h2, RunAnchorInv, hr', hs']

-- ── Claim theorems ──────────────────────────────────────────────────

/-- Claim C4: for every snapshot and every instant `now`, if the snapshot
is not running or its anchor is null then `computeTimeLeft` returns
`timeLeft` unchanged; otherwise it returns
`max 0 (timeLeft - floor((now - startTime) / 1000))`. -/
theorem c4_time_projection (s : TimerStorageState) (now : ℤ) :
    (s.isRunning = false ∨ s.startTime = none →
      computeTimeLeft s now = s.timeLeft) ∧
    (∀ t0, s.isRunning = true → s.startTime = some t0 →
      computeTimeLeft s now =
        max 0 (s.timeLeft - ((⌊(((now - t0 : ℤ) : ℚ)) / 1000⌋ : ℤ) : ℚ))) := by
  constructor
  · rintro (h | h)
    · exact computeTimeLeft_of_not_running s now h
    · exact computeTimeLeft_of_none s now h
  · intro t0 hr ha
    rw [computeTimeLeft_of_running s now t0 hr ha]
    rfl

/-- Witness for C4: a running snapshot anchored at 0 with 600 s left
projects 480 s at instant 120000 ms, and a paused snapshot projects its
stored 60 s unchanged. -/
theorem c4_time_projection_witness :
    computeTimeLeft
      { duration := 1500, timeLeft := 600, isRunning := true,
        startTime := some 0, mode := Mode.work } 120000 = 480 ∧
    computeTimeLeft
      { duration := 1500, timeLeft := 60, isRunning := false,
        startTime := none, mode := Mode.work } 120000 = 60 := by
  constructor
  · have h := (c4_time_projection
      { duration := 1500, timeLeft := 600, isRunning := true,
        startTime := some 0, mode := Mode.work } 120000).2 0 rfl rfl
    rw [h]
    norm_num
  · have h := (c4_time_projection
      { duration := 1500, timeLeft := 60, isRunning := false,
        startTime := none, mode := Mode.work } 120000).1 (Or.inl rfl)
    rw [h]

/-- Claim C7: for a fixed snapshot, `computeTimeLeft` is monotonically
non-increasing in `now` while running, and a constant function of `now`
while not running. -/
theorem c7_projection_monotone (s : TimerStorageState) :
    (s.isRunning = true → ∀ n1 n2 : ℤ, n1 ≤ n2 →
      computeTimeLeft s n2 ≤ computeTimeLeft s n1) ∧
    (s.isRunning = false → ∀ n1 n2 : ℤ,
      computeTimeLeft s n1 = computeTimeLeft s n2) := by
  constructor
  · intro hr n1 n2 h12
    cases hs : s.startTime with
    | none =>
      rw [computeTimeLeft_of_none s n1 hs, computeTimeLeft_of_none s n2 hs]
    | some t0 =>
      rw [computeTimeLeft_of_running s n1 t0 hr hs,
        computeTimeLeft_of_running s n2 t0 hr hs]
      have he : elapsedSeconds t0 n1 ≤ elapsedSeconds t0 n2 :=
        elapsedSeconds_mono t0 h12
      have heq : (elapsedSeconds t0 n1 : ℚ) ≤ (elapsedSeconds t0 n2 : ℚ) := by
        exact_mod_cast he
      exact max_le_max (le_refl 0) (by linarith)
  · intro hr n1 n2
    rw [computeTimeLeft_of_not_running s n1 hr,
      computeTimeLeft_of_not_running s n2 hr]

/-- Witness for C7: at instants 120000 ≤ 125000 the running projection is
non-increasing, and a stopped snapshot projects equally at instants 3
and 99. -/
theorem c7_projection_monotone_witness :
    computeTimeLeft
      { duration := 1500, timeLeft := 600, isRunning := true,
        startTime := some 0, mode := Mode.work } 125000 ≤
      computeTimeLeft
        { duration := 1500, timeLeft := 600, isRunning := true,
          startTime := some 0, mode := Mode.work } 120000 ∧
    computeTimeLeft
      { duration := 1500, timeLeft := 60, isRunning := false,
        startTime := none, mode := Mode.work } 3 =
      computeTimeLeft
        { duration := 1500, timeLeft := 60, isRunning := false,
          startTime := none, mode := Mode.work } 99 := by
  constructor
  · exact (c7_projection_monotone
      { duration := 1500, timeLeft := 600, isRunning := true,
        startTime := some 0, mode := Mode.work }).1 rfl 120000 125000
      (by norm_num)
  · exact (c7_projection_monotone
      { duration := 1500, timeLeft := 60, isRunning := false,
        startTime := none, mode := Mode.work }).2 rfl 3 99

/-- Claim C8: `startTimer` is a no-op on an already-running snapshot and
on a snapshot with `timeLeft ≤ 0`; consequently two consecutive starts
leave the snapshot (anchor included) exactly as the first call left it. -/
theorem c8_start_idempotent (s : TimerStorageState) (n1 n2 : ℤ) :
    (s.isRunning = true → (startTimer s n1).1 = s) ∧
    (s.timeLeft ≤ 0 → (startTimer s n1).1 = s) ∧
    (startTimer (startTimer s n1).1 n2).1 = (startTimer s n1).1 := by
  refine ⟨?_, ?_, ?_⟩
  · intro h
    simp [startTimer, h]
  · intro h
    by_cases hr : s.isRunning = true <;> simp [startTimer, hr, h]
  · by_cases hr : s.isRunning = true
    · simp [startTimer, hr]
    · by_cases h0 : s.timeLeft ≤ 0 <;> simp [startTimer, hr, h0]

/-- Witness for C8: starting an already-running snapshot and starting a
finished snapshot both return the snapshot unchanged. -/
theorem c8_start_idempotent_witness :
    (startTimer
      { duration := 1500, timeLeft := 600, isRunning := true,
        startTime := some 0, mode := Mode.work } 5).1 =
      { duration := 1500, timeLeft := 600, isRunning := true,
        startTime := some 0, mode := Mode.work } ∧
    (startTimer
      { duration := 1500, timeLeft := 0, isRunning := false,
        startTime := none, mode := Mode.brk } 5).1 =
      { duration := 1500, timeLeft := 0, isRunning := false,
        startTime := none, mode := Mode.brk } := by
  constructor
  · exact (c8_start_idempotent
      { duration := 1500, timeLeft := 600, isRunning := true,
        startTime := some 0, mode := Mode.work } 5 7).1 rfl
  · exact (c8_start_idempotent
      { duration := 1500, timeLeft := 0, isRunning := false,
        startTime := none, mode := Mode.brk } 5 7).2.1 (by norm_num)

/-- Claim C9: an alarm firing whose name differs from `'pomodoro-timer'`
produces no effects at all — in particular no store read, no store write,
and the stored snapshot is unchanged. -/
theorem c9_foreign_alarm (name : String) (s : TimerStorageState) (now : ℤ)
    (h : name ≠ ALARM_NAME) :
    handleAlarm name s now = [] ∧
    Effect.readStore ∉ handleAlarm name s now ∧
    (∀ t, Effect.writeStore t ∉ handleAlarm name s now) ∧
    stepStore s (Op.alarm name now) = s := by
  have he : handleAlarm name s now = [] := by simp [handleAlarm, h]
  refine ⟨he, by simp [he], fun t => by simp [he], ?_⟩
  simp [stepStore, effectsOf, he, applyWrites]

/-- Witness for C9: the firing named `'focus-timer'` against a running
snapshot produces no effects and leaves the store unchanged. -/
theorem c9_foreign_alarm_witness :
    handleAlarm "focus-timer"
      { duration := 1500, timeLeft := 600, isRunning := true,
        startTime := some 0, mode := Mode.work } 120000 = [] ∧
    Effect.readStore ∉ handleAlarm "focus-timer"
      { duration := 1500, timeLeft := 600, isRunning := true,
        startTime := some 0, mode := Mode.work } 120000 ∧
    (∀ t, Effect.writeStore t ∉ handleAlarm "focus-timer"
      { duration := 1500, timeLeft := 600, isRunning := true,
        startTime := some 0, mode := Mode.work } 120000) ∧
    stepStore
      { duration := 1500, timeLeft := 600, isRunning := true,
        startTime := some 0, mode := Mode.work }
      (Op.alarm "focus-timer" 120000) =
      { duration := 1500, timeLeft := 600, isRunning := true,
        startTime := some 0, mode := Mode.work } :=
  c9_foreign_alarm "focus-timer"
    { duration := 1500, timeLeft := 600, isRunning := true,
      startTime := some 0, mode := Mode.work } 120000 (by decide)

/-- Claim C10: when `startTimer` actually transitions (not running,
`timeLeft > 0`), the persisted snapshot differs from the prior one only
in `isRunning` and `startTime`: `duration`, `timeLeft` and `mode` are
unchanged, so a later start resumes from the stored remaining time. -/
theorem c10_start_frame (s : TimerStorageState) (now : ℤ)
    (h1 : s.isRunning = false) (h2 : 0 < s.timeLeft) :
    (startTimer s now).1.duration = s.duration ∧
    (startTimer s now).1.timeLeft = s.timeLeft ∧
    (startTimer s now).1.mode = s.mode ∧
    (startTimer s now).1.isRunning = true ∧
    (startTimer s now).1.startTime = some now := by
  simp [startTimer, h1, not_le.mpr h2]

/-- Witness for C10: starting a paused snapshot with 100 s left keeps
`duration`, `timeLeft` and `mode` and records the new anchor. -/
theorem c10_start_frame_witness :
    (startTimer
      { duration := 1500, timeLeft := 100, isRunning := false,
        startTime := none, mode := Mode.brk } 42).1.duration = 1500 ∧
    (startTimer
      { duration := 1500, timeLeft := 100, isRunning := false,
        startTime := none, mode := Mode.brk } 42).1.timeLeft = 100 ∧
    (startTimer
      { duration := 1500, timeLeft := 100, isRunning := false,
        startTime := none, mode := Mode.brk } 42).1.mode = Mode.brk ∧
    (startTimer
      { duration := 1500, timeLeft := 100, isRunning := false,
        startTime := none, mode := Mode.brk } 42).1.isRunning = true ∧
    (startTimer
      { duration := 1500, timeLeft := 100, isRunning := false,
        startTime := none, mode := Mode.brk } 42).1.startTime = some 42 :=
  c10_start_frame
    { duration := 1500, timeLeft := 100, isRunning := false,
      startTime := none, mode := Mode.brk } 42 rfl (by norm_num)

/-- Counterexample to C1 as stated: on the stored snapshot with
`duration = 1500` and `timeLeft = 100`, the rejected request
`SetDuration(-5)` persists `timeLeft = 1500`, not the pre-call value
`100` — the code resets `timeLeft` to the retained `duration`. -/
theorem c1_counterexample :
    (handleMessage (TimerMessage.setDuration (some (JSNum.num (-5))))
      { duration := 1500, timeLeft := 100, isRunning := false,
        startTime := none, mode := Mode.work } 0).1.timeLeft = 1500 ∧
    ({ duration := 1500, timeLeft := 100, isRunning := false,
       startTime := none, mode := Mode.work } :
        TimerStorageState).timeLeft = 100 ∧
    (1500 : ℚ) ≠ 100 := by
  refine ⟨?_, rfl, by norm_num⟩
  norm_num [handleMessage]

/-- Claim C1 (amended): handling a `SetDuration` request whose duration is
rejected (not finite, or floors to `≤ 0`) leaves `duration` unchanged but
sets `timeLeft` to the pre-call `duration` (not the pre-call `timeLeft`),
while persisting `isRunning = false` and `startTime = null` and cancelling
the wake-up schedule. -/
theorem c1_setDuration_rejected (s : TimerStorageState) (j : JSNum)
    (now : ℤ) (hrej : rejectedDuration j) :
    handleMessage (TimerMessage.setDuration (some j)) s now =
      ({ s with timeLeft := s.duration, isRunning := false,
                startTime := none },
        [Effect.readStore,
          Effect.writeStore
            { s with timeLeft := s.duration, isRunning := false,
                     startTime := none },
          Effect.alarmClear]) := by
  cases j with
  | num q =>
    simp only [rejectedDuration] at hrej
    have hq : ¬ (((⌊q⌋ : ℤ) : ℚ) > 0) := by exact_mod_cast not_lt.mpr hrej
    simp [handleMessage, hq]
  | nan => simp [handleMessage]
  | posInf => simp [handleMessage]
  | negInf => simp [handleMessage]

/-- Witness for C1 (amended): `SetDuration(NaN)` on a running mid-session
snapshot stops the timer, resets `timeLeft` to the stored duration and
clears the alarm. -/
theorem c1_setDuration_rejected_witness :
    handleMessage (TimerMessage.setDuration (some JSNum.nan))
      { duration := 1500, timeLeft := 100, isRunning := true,
        startTime := some 7, mode := Mode.work } 9 =
      ({ duration := 1500, timeLeft := 1500, isRunning := false,
         startTime := none, mode := Mode.work },
        [Effect.readStore,
          Effect.writeStore
            { duration := 1500, timeLeft := 1500, isRunning := false,
              startTime := none, mode := Mode.work },
          Effect.alarmClear]) := by
  have h := c1_setDuration_rejected
    { duration := 1500, timeLeft := 100, isRunning := true,
      startTime := some 7, mode := Mode.work } JSNum.nan 9 trivial
  simpa using h

/-- Counterexample to C2 as stated: on a running snapshot whose projected
remaining time at the recovery instant is `≤ 0`, the recovery procedure
emits no `alarmClear` effect — it does not cancel the wake-up schedule,
unlike the Wake-Up Handler's finished branch. -/
theorem c2_counterexample :
    ({ duration := 1500, timeLeft := 60, isRunning := true,
       startTime := some 0, mode := Mode.work } :
        TimerStorageState).isRunning = true ∧
    computeTimeLeft
      { duration := 1500, timeLeft := 60, isRunning := true,
        startTime := some 0, mode := Mode.work } 120000 ≤ 0 ∧
    Effect.alarmClear ∉
      (restoreTimerState
        { duration := 1500, timeLeft := 60, isRunning := true,
          startTime := some 0, mode := Mode.work } 120000).2 := by
  have hrem : computeTimeLeft
      { duration := 1500, timeLeft := 60, isRunning := true,
        startTime := some 0, mode := Mode.work } 120000 = 0 := by
    norm_num [computeTimeLeft, elapsedSeconds]
  refine ⟨rfl, by rw [hrem], ?_⟩
  simp [restoreTimerState, hrem]

/-- Claim C2 (amended): for every stored running snapshot whose projected
remaining time at the recovery instant is `≤ 0`, recovery persists the
finished snapshot `{isRunning := false, timeLeft := 0, startTime := none}`
and emits exactly one completion signal tagged with the snapshot's mode,
but does not cancel the wake-up schedule. -/
theorem c2_recovery_finished (s : TimerStorageState) (t0 now : ℤ)
    (hr : s.isRunning = true) (ha : s.startTime = some t0)
    (hdone : computeTimeLeft s now ≤ 0) :
    restoreTimerState s now =
      ({ s with isRunning := false, timeLeft := 0, startTime := none },
        [Effect.readStore,
          Effect.writeStore
            { s with isRunning := false, timeLeft := 0, startTime := none },
          Effect.notifyFinished s.mode]) := by
  simp [restoreTimerState, hr, ha, hdone]

/-- Witness for C2 (amended): recovering a work-mode snapshot with 60 s
left that was anchored 120 s ago persists the finished snapshot and
notifies for the work mode. -/
theorem c2_recovery_finished_witness :
    restoreTimerState
      { duration := 1500, timeLeft := 60, isRunning := true,
        startTime := some 0, mode := Mode.work } 120000 =
      ({ duration := 1500, timeLeft := 0, isRunning := false,
         startTime := none, mode := Mode.work },
        [Effect.readStore,
          Effect.writeStore
            { duration := 1500, timeLeft := 0, isRunning := false,
              startTime := none, mode := Mode.work },
          Effect.notifyFinished Mode.work]) := by
  have hrem : computeTimeLeft
      { duration := 1500, timeLeft := 60, isRunning := true,
        startTime := some 0, mode := Mode.work } 120000 ≤ 0 := by
    norm_num [computeTimeLeft, elapsedSeconds]
  have h := c2_recovery_finished
    { duration := 1500, timeLeft := 60, isRunning := true,
      startTime := some 0, mode := Mode.work } 0 120000 rfl rfl hrem
  simpa using h

/-- Claim C6: starting a full snapshot (`timeLeft = duration > 0`) at
`t0` and pausing at `t0 + e * 1000` (after `e ≥ 0` whole seconds)
persists `timeLeft = max 0 (duration - e)`, `isRunning = false` and
`startTime = null`. -/
theorem c6_pause_roundtrip (s : TimerStorageState) (t0 e : ℤ)
    (hrun : s.isRunning = false) (hfull : s.timeLeft = s.duration)
    (hpos : 0 < s.duration) (he : 0 ≤ e) :
    (pauseTimer (startTimer s t0).1 (t0 + e * 1000)).1.timeLeft =
      max 0 (s.duration - (e : ℚ)) ∧
    (pauseTimer (startTimer s t0).1 (t0 + e * 1000)).1.isRunning = false ∧
    (pauseTimer (startTimer s t0).1 (t0 + e * 1000)).1.startTime = none := by
  have hnle : ¬ s.timeLeft ≤ 0 := by rw [hfull]; exact not_le.mpr hpos
  have hstart : (startTimer s t0).1 =
      { s with isRunning := true, startTime := some t0 } := by
    simp [startTimer, hrun, hnle]
  have hel : elapsedSeconds t0 (t0 + e * 1000) = e := by
    unfold elapsedSeconds
    have hq : ((t0 + e * 1000 - t0 : ℤ) : ℚ) / 1000 = (e : ℚ) := by
      push_cast
      ring_nf
    rw [hq, Int.floor_intCast]
  have hct : computeTimeLeft
      { s with isRunning := true, startTime := some t0 } (t0 + e * 1000) =
      max 0 (s.duration - (e : ℚ)) := by
    rw [computeTimeLeft_of_running _ _ t0 rfl rfl, hel]
    simp [hfull]
  rw [hstart]
  refine ⟨?_, by simp [pauseTimer], by simp [pauseTimer]⟩
  simp [pauseTimer, hct]

/-- Witness for C6: start a fresh 1500 s snapshot at 0 ms and pause at
100000 ms; the stored snapshot has 1400 s left, stopped, unanchored. -/
theorem c6_pause_roundtrip_witness :
    (pauseTimer (startTimer
      { duration := 1500, timeLeft := 1500, isRunning := false,
        startTime := none, mode := Mode.work } 0).1 (0 + 100 * 1000)).1.timeLeft
      = 1400 ∧
    (pauseTimer (startTimer
      { duration := 1500, timeLeft := 1500, isRunning := false,
        startTime := none, mode := Mode.work } 0).1
        (0 + 100 * 1000)).1.isRunning = false ∧
    (pauseTimer (startTimer
      { duration := 1500, timeLeft := 1500, isRunning := false,
        startTime := none, mode := Mode.work } 0).1
        (0 + 100 * 1000)).1.startTime = none := by
  have h := c6_pause_roundtrip
    { duration := 1500, timeLeft := 1500, isRunning := false,
      startTime := none, mode := Mode.work } 0 100 rfl rfl (by norm_num)
    (by norm_num)
  refine ⟨?_, h.2.1, h.2.2⟩
  rw [h.1]
  norm_num

/-- Claim C5: every snapshot reachable from the default snapshot
satisfies `isRunning = true ⇔ startTime ≠ null`, and every operation
applied to a reachable snapshot preserves it. -/
theorem c5_run_anchor_invariant (s : TimerStorageState) (op : Op)
    (h : Reachable s) :
    (s.isRunning = true ↔ s.startTime ≠ none) ∧
    ((stepStore s op).isRunning = true ↔
      (stepStore s op).startTime ≠ none) := by
  have key : ∀ u, Reachable u → RunAnchorInv u := by
    intro u hu
    induction hu with
    | base => exact runAnchorInv_default
    | step s' op' h' ih => exact runAnchorInv_step s' op' ih
  exact ⟨key s h, key _ (Reachable.step s op h)⟩

/-- Witness for C5: the invariant holds at the default snapshot and
after starting it at instant 5. -/
theorem c5_run_anchor_invariant_witness :
    (DEFAULT_TIMER_STATE.isRunning = true ↔
      DEFAULT_TIMER_STATE.startTime ≠ none) ∧
    ((stepStore DEFAULT_TIMER_STATE
        (Op.msg TimerMessage.start 5)).isRunning = true ↔
      (stepStore DEFAULT_TIMER_STATE
        (Op.msg TimerMessage.start 5)).startTime ≠ none) :=
  c5_run_anchor_invariant DEFAULT_TIMER_STATE (Op.msg TimerMessage.start 5)
    Reachable.base

-- ── The time-bounds invariant (claim C3) ────────────────────────────

/-- Operations whose `RESET` payload, when present, is non-negative.
All other operations are unrestricted. -/
def GoodOp : Op → Prop
  | Op.msg (TimerMessage.reset (some d)) _ => 0 ≤ d
  | _ => True

/-- Snapshots reachable from the default snapshot by monotone-time
sequences of operations whose `RESET` payloads are non-negative. -/
inductive ReachableGoodAt : TimerStorageState → ℤ → Prop where
  | base (t : ℤ) : ReachableGoodAt DEFAULT_TIMER_STATE t
  | step (s : TimerStorageState) (t : ℤ) (op : Op)
      (h : ReachableGoodAt s t) (hg : GoodOp op) (ht : t ≤ op.time) :
      ReachableGoodAt (stepStore s op) op.time

/-- The inductive invariant behind claim C3: the stored bounds
`0 ≤ timeLeft ≤ duration` (with `0 ≤ duration`), and the anchor never in
the future of the last operation instant `t`. -/
def TimeBoundsInv (s : TimerStorageState) (t : ℤ) : Prop :=
  0 ≤ s.duration ∧ 0 ≤ s.timeLeft ∧ s.timeLeft ≤ s.duration ∧
    ∀ t0, s.startTime = some t0 → t0 ≤ t

theorem timeBoundsInv_default (t : ℤ) :
    TimeBoundsInv DEFAULT_TIMER_STATE t := by
  refine ⟨by norm_num [DEFAULT_TIMER_STATE], by norm_num [DEFAULT_TIMER_STATE],
    by norm_num [DEFAULT_TIMER_STATE], ?_⟩
  intro t0 hh
  simp [DEFAULT_TIMER_STATE] at hh

theorem timeBoundsInv_step (s : TimerStorageState) (t : ℤ) (op : Op)
    (h : TimeBoundsInv s t) (hg : GoodOp op) (ht : t ≤ op.time) :
    TimeBoundsInv (stepStore s op) op.time := by
  obtain ⟨hd, h0, hld, ha⟩ := h
  have ha' : ∀ t0, s.startTime = some t0 → t0 ≤ op.time :=
    fun t0 hs => (ha t0 hs).trans ht
  cases op with
  | msg m now =>
    simp only [Op.time] at ha' ⊢
    cases m with
    | getState =>
      rw [stepStore_msg_getState]
      exact ⟨hd, h0, hld, ha'⟩
    | start =>
      rw [stepStore_msg_start]
      unfold startTimer
      split_ifs with h1 h2
      · exact ⟨hd, h0, hld, ha'⟩
      · exact ⟨hd, h0, hld, ha'⟩
      · refine ⟨hd, h0, hld, ?_⟩
        intro t0 hh
        simp at hh
        omega
    | pause =>
      rw [stepStore_msg_pause]
      unfold pauseTimer
      split_ifs with h1
      · exact ⟨hd, h0, hld, ha'⟩
      · refine ⟨hd, computeTimeLeft_nonneg s now h0,
          (computeTimeLeft_le_timeLeft s now h0 ha').trans hld, ?_⟩
        intro t0 hh
        simp at hh
    | reset d =>
      rw [stepStore_msg_reset]
      unfold resetTimer
      have hrd : 0 ≤ d.getD s.duration := by
        cases d with
        | none => exact hd
        | some v => exact hg
      refine ⟨hrd, hrd, le_refl _, ?_⟩
      intro t0 hh
      simp at hh
    | setMode m =>
      rw [stepStore_msg_setMode]
      exact ⟨hd, h0, hld, ha'⟩
    | setDuration d =>
      rw [stepStore_msg_setDuration]
      simp only [handleMessage]
      split_ifs with hf
      · refine ⟨le_of_lt hf, le_of_lt hf, le_refl _, ?_⟩
        intro t0 hh
        simp at hh
      · refine ⟨hd, hd, le_refl _, ?_⟩
        intro t0 hh
        simp at hh
  | alarm name now =>
    simp only [Op.time] at ha' ⊢
    by_cases hn : name ≠ ALARM_NAME
    · have he : stepStore s (Op.alarm name now) = s := by
        simp [stepStore, effectsOf, handleAlarm, hn, applyWrites]
      rw [he]
      exact ⟨hd, h0, hld, ha'⟩
    · push_neg at hn
      by_cases hr : s.isRunning = false
      · have he : stepStore s (Op.alarm name now) = s := by
          simp [stepStore, effectsOf, handleAlarm, hn, hr, applyWrites]
        rw [he]
        exact ⟨hd, h0, hld, ha'⟩
      · have hr' : s.isRunning = true := by
          cases hb : s.isRunning
          · exact absurd hb hr
          · rfl
        by_cases hrem : computeTimeLeft s now ≤ 0
        · have he : stepStore s (Op.alarm name now) =
              { s with isRunning := false, timeLeft := 0,
                       startTime := none } := by
            simp [stepStore, effectsOf, handleAlarm, hn, hr', hrem,
              applyWrites]
          rw [he]
          refine ⟨hd, le_refl _, hd, ?_⟩
          intro t0 hh
          simp at hh
        · have he : stepStore s (Op.alarm name now) =
              { s with timeLeft := computeTimeLeft s now,
                       startTime := some now } := by
            simp [stepStore, effectsOf, handleAlarm, hn, hr', hrem,
              applyWrites]
          rw [he]
          refine ⟨hd, computeTimeLeft_nonneg s now h0,
            (computeTimeLeft_le_timeLeft s now h0 ha').trans hld, ?_⟩
          intro t0 hh
          simp at hh
          omega
  | restore now =>
    simp only [Op.time] at ha' ⊢
    rw [stepStore_restore_eq]
    by_cases h1 : s.isRunning = false ∨ s.startTime = none
    · simp only [restoreTimerState, if_pos h1]
      exact ⟨hd, h0, hld, ha'⟩
    · by_cases h2 : computeTimeLeft s now ≤ 0
      · have he : (restoreTimerState s now).1 =
            { s with isRunning := false, timeLeft := 0,
                     startTime := none } := by
          simp [restoreTimerState, h1, h2]
        rw [he]
        refine ⟨hd, le_refl _, hd, ?_⟩
        intro t0 hh
        simp at hh
      · have he : (restoreTimerState s now).1 =
            { s with timeLeft := computeTimeLeft s now,
                     startTime := some now } := by
          simp [restoreTimerState, h1, h2]
        rw [he]
        refine ⟨hd, computeTimeLeft_nonneg s now h0,
          (computeTimeLeft_le_timeLeft s now h0 ha').trans hld, ?_⟩
        intro t0 hh
        simp at hh
        omega

/-- Counterexample to C3 as stated: `Reset(-5)` is a legal operation
sequence from the default snapshot (the code never validates the reset
payload), and it persists `timeLeft = -5 < 0`. -/
theorem c3_counterexample :
    ReachableAt
      (stepStore DEFAULT_TIMER_STATE
        (Op.msg (TimerMessage.reset (some (-5))) 0)) 0 ∧
    (stepStore DEFAULT_TIMER_STATE
      (Op.msg (TimerMessage.reset (some (-5))) 0)).timeLeft = -5 ∧
    ¬ (0 : ℚ) ≤ -5 := by
  refine ⟨?_, ?_, by norm_num⟩
  · exact ReachableAt.step DEFAULT_TIMER_STATE 0
      (Op.msg (TimerMessage.reset (some (-5))) 0) (ReachableAt.base 0)
      (le_refl 0)
  · simp [stepStore, effectsOf, handleMessage, resetTimer, applyWrites]

/-- Claim C3 (amended): restricting the reset payloads to non-negative
values, every snapshot reachable from the default snapshot over a
monotone-time operation sequence satisfies
`0 ≤ timeLeft ∧ timeLeft ≤ duration`. -/
theorem c3_time_bounds (s : TimerStorageState) (t : ℤ)
    (h : ReachableGoodAt s t) :
    0 ≤ s.timeLeft ∧ s.timeLeft ≤ s.duration := by
  have key : TimeBoundsInv s t := by
    induction h with
    | base t => exact timeBoundsInv_default t
    | step s' t' op' h' hg' ht' ih => exact timeBoundsInv_step s' t' op' ih hg' ht'
  exact ⟨key.2.1, key.2.2.1⟩

/-- Witness for C3 (amended): after `Start` at 0 ms and a wake-up firing
at 120000 ms, the stored bounds hold. -/
theorem c3_time_bounds_witness :
    0 ≤ (stepStore
      (stepStore DEFAULT_TIMER_STATE (Op.msg TimerMessage.start 0))
      (Op.alarm "pomodoro-timer" 120000)).timeLeft ∧
    (stepStore
      (stepStore DEFAULT_TIMER_STATE (Op.msg TimerMessage.start 0))
      (Op.alarm "pomodoro-timer" 120000)).timeLeft ≤
      (stepStore
        (stepStore DEFAULT_TIMER_STATE (Op.msg TimerMessage.start 0))
        (Op.alarm "pomodoro-timer" 120000)).duration :=
  c3_time_bounds _ 120000
    (ReachableGoodAt.step _ 0 (Op.alarm "pomodoro-timer" 120000)
      (ReachableGoodAt.step DEFAULT_TIMER_STATE 0
        (Op.msg TimerMessage.start 0) (ReachableGoodAt.base 0) trivial
        (le_refl 0))
      trivial (by norm_num [Op.time]))

end Pomodoro

